import Mathlib

/-!
Verification of the nsfw_db_manager bulk CSV-to-asset ingestion pipeline and
of the backend metadata store, shallowly embedded from the Python source.

Modelling conventions:
* Filesystem paths are lists of segments rooted at the filesystem root;
  `Path.resolve()` is modelled by `normalizeSegs`, which interprets `..`
  segments by dropping the previous segment.
* The on-disk state visible to the resolvers is a listing of existing file
  paths (`FileSystem`), in the deterministic order the directory walk of
  `Path.rglob` would produce.
* A raw CSV cell (pandas) is `Cell`: a missing column / `None`, a numeric
  `NaN`, or a string.
* Network and storage effects are oracles: a per-row upload oracle for the
  drivers, and step-success flags for the backend upload endpoint.
-/

namespace NsfwDb

/-- A filesystem path as a list of segments from the root. -/
abbrev FPath := List String

/-- Model of Python `Path.resolve()` on already-rooted paths: each `..`
segment removes the segment before it (at the root, `..` is a no-op). -/
def normalizeSegs (p : FPath) : FPath :=
  p.foldl (fun acc seg => if seg = ".." then acc.dropLast else acc ++ [seg]) []

/-- The extracted archive's visible files, in deterministic walk order. -/
structure FileSystem where
  files : List FPath
deriving DecidableEq

/-- `Path.exists()` for a file path. -/
def FileSystem.fileExists (fs : FileSystem) (p : FPath) : Bool :=
  fs.files.contains p

/-- `Path.exists()` for a directory: some listed file lies strictly below it. -/
def FileSystem.dirExists (fs : FileSystem) (d : FPath) : Bool :=
  fs.files.any (fun f => d.isPrefixOf f && f.length > d.length)

/-- First match of `search_dir.rglob(filename)` in walk order. -/
def FileSystem.rglobFirst (fs : FileSystem) (dir : FPath) (filename : String) :
    Option FPath :=
  fs.files.find? (fun f =>
    dir.isPrefixOf f && f.length > dir.length && f.getLast? == some filename)

/-- `Path(image_path).name`: the final segment of the declared path. -/
def pathName (p : FPath) : String :=
  (p.getLast?).getD ""

/-!
Path resolution in `frontend/src/bulk_upload_tab.py` (`process_bulk_upload`):
the declared path is first resolved either against the extraction root
(after stripping one leading `../`) or against the CSV's directory, and if
that file does not exist the base filename is searched recursively under
`<temp_dir>/resources/nsfw_data`.
-/

/-- The primary resolution of `process_bulk_upload`: if the declared path
starts with `../`, strip that one segment and resolve against the extraction
root `tempDir`; otherwise resolve against the CSV's directory. -/
def bulkPrimary (tempDir csvDir : FPath) (imagePath : FPath) : FPath :=
  if imagePath.head? = some ".." then
    normalizeSegs (tempDir ++ imagePath.tail)
  else
    normalizeSegs (csvDir ++ imagePath)

/-- Full resolver of `process_bulk_upload`: primary resolution, then, when
the primary result does not exist, the first `rglob` match of the base
filename under `<temp_dir>/resources/nsfw_data` (when that directory
exists). -/
def resolveBulkPath (fs : FileSystem) (tempDir csvDir : FPath)
    (imagePath : FPath) : FPath :=
  let resolved := bulkPrimary tempDir csvDir imagePath
  if fs.fileExists resolved then resolved
  else
    let searchDir := tempDir ++ ["resources", "nsfw_data"]
    if fs.dirExists searchDir then
      match fs.rglobFirst searchDir (pathName imagePath) with
      | some m => m
      | none => resolved
    else resolved

/-- Path resolution in `zip_uploader.py` (`process_zip_upload`):
`(csv_dir / image_path).resolve()` — every declared path, parent-escaped or
not, is resolved against the CSV's own directory, with `..` handled only by
path normalization.  There is no escape-stripping and no recursive search. -/
def resolveZipPath (csvDir : FPath) (imagePath : FPath) : FPath :=
  normalizeSegs (csvDir ++ imagePath)

/-!
Row normalization.  A raw CSV cell as pandas hands it to the row loop is
either a missing column (`row.get` returns the default), a numeric `NaN`, or
a string value.
-/

/-- A raw CSV cell value. -/
inductive Cell
  | absent
  | nan
  | str (s : String)
deriving DecidableEq

/-- `pd.notna` on a cell (`row.get`'s default `None` is also not-a-value). -/
def Cell.notna : Cell → Bool
  | .absent => false
  | .nan => false
  | .str _ => true

/-- Python `str.strip()`: drop whitespace from both ends. -/
def pyStrip (s : String) : String :=
  String.mk
    (((s.data.dropWhile Char.isWhitespace).reverse.dropWhile
      Char.isWhitespace).reverse)

/-- The normalization applied to `action_1`, `action_2`, `action_3` and
`prompt` in all three drivers:
`v = v if pd.notna(v) and str(v).strip() else None`.
When the cell is a string whose strip is non-empty the ORIGINAL value is
kept (the strip result is only tested for truthiness, never stored). -/
def normalizeOptField (c : Cell) : Option String :=
  match c with
  | .str s => if pyStrip s ≠ "" then some s else none
  | _ => none

/-- The treatment of `angle_direction_1` / `angle_direction_2` in the
drivers: `row.get('angle_direction_k', '')` — a missing column becomes the
empty string and any present value (including `NaN` or `""`) passes through
unchanged.  No absence normalization is applied to angles. -/
def angleField (c : Cell) : Cell :=
  match c with
  | .absent => .str ""
  | c => c

/-!
The row loop of `process_zip_upload` (`zip_uploader.py`).  Each row is
processed inside its own `try`, so one row's failure never aborts the batch;
the results dictionary starts at `total = len(df)` and each row increments
exactly one of `successful` / `failed`, failures appending one message to
`errors`.
-/

/-- One data row as the drivers consume it (the zip driver ignores
`prompt`; the frontend driver also reads it). -/
structure CsvRow where
  referenceName : String
  imagePath : FPath
  angle1 : Cell
  angle2 : Cell
  action1 : Cell
  action2 : Cell
  action3 : Cell
  prompt : Cell
deriving DecidableEq

/-- Outcome of the upload request for one row: the created asset id, or the
text of the exception/rejection raised during the upload. -/
abbrev UploadOracle := Nat → CsvRow → Except String Nat

/-- Result of one iteration of the row loop. -/
inductive RowOutcome
  | success (assetId : Nat)
  | failure (msg : String)
deriving DecidableEq

/-- Whether the outcome incremented the success counter. -/
def RowOutcome.isSuccess : RowOutcome → Bool
  | .success _ => true
  | .failure _ => false

/-- The message appended to the error list, when the outcome is a failure. -/
def RowOutcome.failureMsg : RowOutcome → Option String
  | .success _ => none
  | .failure m => some m

/-- The error message recorded for a row whose resolved path does not
exist: `upload_image_with_metadata` raises
`FileNotFoundError(f"Image not found: {image_path}")`, which the row loop
records as `f"Row {idx+1} ({reference_name}): {e}"`. -/
def notFoundMsg (idx : Nat) (row : CsvRow) (resolved : FPath) : String :=
  "Row " ++ toString (idx + 1) ++ " (" ++ row.referenceName ++
    "): Image not found: " ++ String.intercalate "/" resolved

/-- The error message recorded for a row whose upload raised `e`. -/
def uploadErrMsg (idx : Nat) (row : CsvRow) (e : String) : String :=
  "Row " ++ toString (idx + 1) ++ " (" ++ row.referenceName ++ "): " ++ e

/-- The body of one iteration of the zip driver's row loop: resolve the
declared path against the CSV directory, raise not-found if it does not
exist, otherwise attempt the upload. -/
def processCsvRow (fs : FileSystem) (csvDir : FPath) (upload : UploadOracle)
    (idx : Nat) (row : CsvRow) : RowOutcome :=
  let resolved := resolveZipPath csvDir row.imagePath
  if fs.fileExists resolved then
    match upload idx row with
    | .ok assetId => .success assetId
    | .error e => .failure (uploadErrMsg idx row e)
  else
    .failure (notFoundMsg idx row resolved)

/-- The ingestion summary dictionary returned by the drivers. -/
structure Summary where
  total : Nat
  successful : Nat
  failed : Nat
  errors : List String
deriving DecidableEq

/-- Folding one row outcome into the running results dictionary. -/
def stepSummary (acc : Summary) (o : RowOutcome) : Summary :=
  match o with
  | .success _ => Summary.mk acc.total (acc.successful + 1) acc.failed acc.errors
  | .failure m =>
      Summary.mk acc.total acc.successful (acc.failed + 1) (acc.errors ++ [m])

/-- The row loop of `process_zip_upload`: results start at
`{total := len(df), successful := 0, failed := 0, errors := []}` and every
row is folded in file order. -/
def processCsvRows (fs : FileSystem) (csvDir : FPath) (upload : UploadOracle)
    (rows : List CsvRow) : Summary :=
  (rows.enum.map (fun ir => processCsvRow fs csvDir upload ir.1 ir.2)).foldl
    stepSummary (Summary.mk rows.length 0 0 [])

/-!
Backend metadata store (`backend/src/main.py`, `backend/src/models.py`).
An `ImageAsset` row as the ORM persists it; the database is the list of
rows in insertion order.  Timestamps are abstract naturals.
-/

/-- One persisted `image_assets` row. -/
structure ImageAsset where
  id : Nat
  created_at : Nat
  deleted_at : Option Nat
  angle_1 : Option String
  angle_2 : Option String
  action_1 : Option String
  action_2 : Option String
  action_3 : Option String
  prompt : Option String
  s3_url : Option String
  local_file_path : Option String
  original_filename : Option String
deriving DecidableEq

/-- The autoincrement primary key assigned at insert. -/
def newAssetId (db : List ImageAsset) : Nat :=
  db.length + 1

/-- Success/failure of each effectful step of `upload_image_asset`:
reading the uploaded file, writing it to local storage, the S3 upload (its
returned URL, `none` meaning failure), and the database add/commit. -/
structure UploadStep where
  readOk : Bool
  localSaveOk : Bool
  s3Result : Option String
  commitOk : Bool
deriving DecidableEq

/-- `upload_image_asset` (`backend/src/main.py`).  The whole body sits in a
`try` whose `except` does `db.rollback()` and raises HTTP 500, so any step
failure leaves the database unchanged; on success exactly one record is
committed, with `local_file_path` set in local-storage mode and `s3_url`
set in S3 mode (the other pointer stays `None`).  Returns the HTTP outcome
(created asset or status 500) together with the database after the
request. -/
def uploadImageAsset (useLocalStorage : Bool) (st : UploadStep) (now : Nat)
    (filename : String)
    (angle1 angle2 action1 action2 action3 prompt : Option String)
    (db : List ImageAsset) : Except Nat ImageAsset × List ImageAsset :=
  if !st.readOk then (.error 500, db)
  else
    let stored : Option (Option String × Option String) :=
      if useLocalStorage then
        if st.localSaveOk then some (none, some ("uploads/images/" ++ filename))
        else none
      else
        match st.s3Result with
        | some url => some (some url, none)
        | none => none
    match stored with
    | none => (.error 500, db)
    | some pointers =>
        let asset := ImageAsset.mk (newAssetId db) now none angle1 angle2
          action1 action2 action3 prompt pointers.1 pointers.2 (some filename)
        if st.commitOk then (.ok asset, db ++ [asset])
        else (.error 500, db)

/-- Search parameters of `GET /api/search` (FastAPI validates
`1 ≤ limit ≤ 1000` and `0 ≤ offset` before the handler runs). -/
structure SearchParams where
  angle_1 : Option String
  angle_2 : Option String
  action_1 : Option String
  action_2 : Option String
  action_3 : Option String
  prompt : Option String
  include_deleted : Bool
  limit : Nat
  offset : Nat
deriving DecidableEq

/-- `if param:` (Python truthiness of an optional query string). -/
def truthy (p : Option String) : Bool :=
  match p with
  | some s => s ≠ ""
  | none => false

/-- One `query.filter(column == param)` step, applied only when the
parameter is truthy; a NULL column never matches. -/
def applyEqFilter (field : ImageAsset → Option String) (p : Option String)
    (l : List ImageAsset) : List ImageAsset :=
  match p with
  | some s => if s ≠ "" then l.filter (fun a => field a = some s) else l
  | none => l

/-- SQL `prompt LIKE '%needle%'` on a nullable column: NULL never matches,
otherwise substring containment. -/
def promptLike (a : ImageAsset) (needle : String) : Bool :=
  match a.prompt with
  | some p => decide (needle.data <:+: p.data)
  | none => false

/-- The `prompt LIKE` filter step, applied only when the parameter is
truthy. -/
def applyPromptFilter (p : Option String) (l : List ImageAsset) :
    List ImageAsset :=
  match p with
  | some s => if s ≠ "" then l.filter (fun a => promptLike a s) else l
  | none => l

/-- `search_image_assets` (`backend/src/main.py`): the soft-delete filter is
applied first unless `include_deleted`, then the truthy field filters and
the prompt LIKE filter, then `count` and `offset`/`limit` pagination. -/
def searchImageAssets (db : List ImageAsset) (ps : SearchParams) :
    Nat × List ImageAsset :=
  let q0 := if ps.include_deleted then db
            else db.filter (fun a => a.deleted_at = none)
  let q1 := applyEqFilter (fun a => a.angle_1) ps.angle_1 q0
  let q2 := applyEqFilter (fun a => a.angle_2) ps.angle_2 q1
  let q3 := applyEqFilter (fun a => a.action_1) ps.action_1 q2
  let q4 := applyEqFilter (fun a => a.action_2) ps.action_2 q3
  let q5 := applyEqFilter (fun a => a.action_3) ps.action_3 q4
  let q6 := applyPromptFilter ps.prompt q5
  (q6.length, (q6.drop ps.offset).take ps.limit)

/-- `get_image_asset` (`GET /api/assets/{asset_id}`): a plain primary-key
lookup with no `deleted_at` condition — soft-deleted rows are returned. -/
def getImageAsset (db : List ImageAsset) (assetId : Nat) : Option ImageAsset :=
  db.find? (fun a => a.id = assetId)

/-!
Composite view of the zip driver against the backend store, for the
duplicate question: the driver reads only the CSV rows and the extracted
filesystem; every row whose path resolves and whose POST `/api/upload`
succeeds appends one fresh record via `upload_image_asset`.  No component
consults existing records before inserting.
-/

/-- Whatever a cell looks like once the zip driver puts it in the request
`data` dict and `requests` encodes it (a `NaN` float encodes as `"nan"`). -/
def cellAsSent : Cell → String
  | .absent => ""
  | .nan => "nan"
  | .str s => s

/-- Whether a row would be uploaded by the zip driver: its declared path
resolves to an existing file and the backend accepts the POST.  The store
contents play no part in this decision. -/
def rowUploadable (fs : FileSystem) (csvDir : FPath)
    (accepts : Nat → CsvRow → Bool) (ir : Nat × CsvRow) : Bool :=
  fs.fileExists (resolveZipPath csvDir ir.2.imagePath) && accepts ir.1 ir.2

/-- The backend insert performed for one accepted zip row (local-storage
mode, all steps succeeding): angles are always sent (`data` dict), actions
only when their normalization is present. -/
def insertZipRow (now : Nat) (row : CsvRow) (db : List ImageAsset) :
    List ImageAsset :=
  (uploadImageAsset true (UploadStep.mk true true none true) now
    (pathName row.imagePath)
    (some (cellAsSent (angleField row.angle1)))
    (some (cellAsSent (angleField row.angle2)))
    (normalizeOptField row.action1)
    (normalizeOptField row.action2)
    (normalizeOptField row.action3)
    none db).2

/-- One run of the zip driver against the store `db`: each uploadable row,
in file order, performs one backend insert. -/
def runZipBatchStore (fs : FileSystem) (csvDir : FPath)
    (accepts : Nat → CsvRow → Bool) (now : Nat) (rows : List CsvRow)
    (db : List ImageAsset) : List ImageAsset :=
  rows.enum.foldl
    (fun acc ir =>
      if rowUploadable fs csvDir accepts ir then insertZipRow now ir.2 acc
      else acc) db

/-!
Temporary-directory lifecycle (`tempfile.mkdtemp` / `shutil.rmtree`).  Both
drivers create one fresh temporary extraction directory and remove it in a
`finally` block, so removal happens on the success path, on per-row partial
failure, and when a batch-level exception propagates.
-/

/-- The set of temporary extraction directories on disk, by numeric id. -/
structure DiskState where
  tempDirs : List Nat
deriving DecidableEq

/-- A directory id not yet on disk (models `tempfile.mkdtemp` freshness). -/
def freshTempId (d : DiskState) : Nat :=
  d.tempDirs.foldr (fun a b => max a b) 0 + 1

/-- `tempfile.mkdtemp()`: creates and returns a fresh directory. -/
def mkdtemp (d : DiskState) : Nat × DiskState :=
  (freshTempId d, DiskState.mk (d.tempDirs ++ [freshTempId d]))

/-- `shutil.rmtree(t)`: removes the directory. -/
def rmtree (d : DiskState) (t : Nat) : DiskState :=
  DiskState.mk (d.tempDirs.filter (fun x => x != t))

/-- Batch-level fatal conditions of `process_zip_upload`, as the exceptions
it raises: the zip library raising on a bad archive, the
`FileNotFoundError` for a missing CSV, and `pd.read_csv` raising. -/
inductive BatchErr
  | badZip (msg : String)
  | noCsv (msg : String)
  | badCsv (msg : String)
deriving DecidableEq

/-- Everything one driver invocation finds inside the archive: whether
extraction raises (`extractErr`), whether `rglob("*.csv")` finds a CSV,
whether `pd.read_csv` raises (`csvParseErr`), the extraction-root path
`tempRoot` and CSV directory inside the modelled filesystem, and the parsed
data rows. -/
structure BatchInput where
  extractErr : Option String
  csvFound : Bool
  csvParseErr : Option String
  tempRoot : FPath
  csvDir : FPath
  rows : List CsvRow
  fs : FileSystem

/-- The `try` body of `process_zip_upload`: extraction, CSV discovery
(raising `FileNotFoundError("No CSV file found in zip archive")` when the
archive holds no CSV), CSV parsing, then the row loop.  An exception is an
`error` value; the row loop itself never raises. -/
def zipDriverBody (inp : BatchInput) (upload : UploadOracle) :
    Except BatchErr Summary :=
  match inp.extractErr with
  | some m => .error (.badZip m)
  | none =>
    if !inp.csvFound then
      .error (.noCsv "No CSV file found in zip archive")
    else
      match inp.csvParseErr with
      | some m => .error (.badCsv m)
      | none => .ok (processCsvRows inp.fs inp.csvDir upload inp.rows)

/-- `process_zip_upload` with its temporary-directory lifecycle:
`temp_dir = tempfile.mkdtemp()`, then `try: body finally:
shutil.rmtree(temp_dir, ignore_errors=True)` — the removal runs whether the
body returns a summary or raises. -/
def runZipDriver (disk : DiskState) (inp : BatchInput)
    (upload : UploadOracle) : Except BatchErr Summary × DiskState :=
  let td := mkdtemp disk
  (zipDriverBody inp upload, rmtree td.2 td.1)

/-!
The frontend driver `process_bulk_upload` (`bulk_upload_tab.py`).  Its row
loop only counts successes and failures; its batch body is wrapped in
`try/except Exception` returning an error status string, with a `finally`
removing the temporary directory.
-/

/-- The row loop of `process_bulk_upload`: resolve with the three-strategy
resolver, count a failure when the resolved path does not exist or the POST
is not HTTP 200, a success otherwise. -/
def bulkCounts (fs : FileSystem) (tempDir csvDir : FPath)
    (httpOk : Nat → CsvRow → Bool) (rows : List CsvRow) : Nat × Nat :=
  rows.enum.foldl
    (fun acc ir =>
      if fs.fileExists (resolveBulkPath fs tempDir csvDir ir.2.imagePath) then
        if httpOk ir.1 ir.2 then (acc.1 + 1, acc.2) else (acc.1, acc.2 + 1)
      else (acc.1, acc.2 + 1)) (0, 0)

/-- The status string returned by `process_bulk_upload`.  Any exception in
the `try` body — including the `ZeroDivisionError` raised by the
success-rate log line `successful/total_rows*100` when the CSV has zero
data rows — is caught and turned into an
`"❌ Error processing bulk upload: ..."` status; a missing CSV is an early
return of `"❌ No CSV file found in zip archive"`. -/
def bulkBodyStatus (inp : BatchInput) (httpOk : Nat → CsvRow → Bool) :
    String :=
  match inp.extractErr with
  | some m => "❌ Error processing bulk upload: " ++ m
  | none =>
    if !inp.csvFound then "❌ No CSV file found in zip archive"
    else
      match inp.csvParseErr with
      | some m => "❌ Error processing bulk upload: " ++ m
      | none =>
        let total := inp.rows.length
        let c := bulkCounts inp.fs inp.tempRoot inp.csvDir httpOk inp.rows
        if total = 0 then
          "❌ Error processing bulk upload: division by zero"
        else
          "✅ Bulk upload completed! " ++ toString c.1 ++ "/" ++
            toString total ++ " successful"

/-- `process_bulk_upload` with its temporary-directory lifecycle: the
status is computed in the guarded body and the `finally` removes the
temporary directory on every exit path. -/
def runBulkDriver (disk : DiskState) (inp : BatchInput)
    (httpOk : Nat → CsvRow → Bool) : String × DiskState :=
  let td := mkdtemp disk
  (bulkBodyStatus inp httpOk, rmtree td.2 td.1)

/-- Exit behaviour of `upload_csv_to_db.py`'s `main` once the batch has
produced `results`: the summary print includes
`results['successful']/results['total']*100`, which raises
`ZeroDivisionError` when `total = 0` and makes the interpreter exit with
code 1; otherwise `main` returns `0 if results['failed'] == 0 else 1` and
the script runs `exit(main())`. -/
def cliExitCode (results : Summary) : Nat :=
  if results.total = 0 then 1
  else if results.failed = 0 then 0 else 1

/-!
Concrete instances used to evaluate the model on small inputs.
-/

/-- A data row whose declared path uses the parent-escape convention. -/
def rowEx : CsvRow :=
  CsvRow.mk "testright_02_v1" ["..", "resources", "nsfw_data", "img.png"]
    (Cell.str "above") (Cell.str "front") (Cell.str "test") Cell.absent
    Cell.absent Cell.absent

/-- An extracted archive that contains no CSV file. -/
def noCsvInput : BatchInput :=
  BatchInput.mk none false none ["T"] ["T"] [] (FileSystem.mk [])

/-- An extracted archive whose CSV has a header row and zero data rows. -/
def emptyCsvInput : BatchInput :=
  BatchInput.mk none true none ["T"] ["T"] [] (FileSystem.mk [])

/-- A soft-deleted record (non-null `deleted_at`). -/
def rDel : ImageAsset :=
  ImageAsset.mk 1 0 (some 5) (some "above") (some "front") (some "test")
    none none (some "a prompt") none (some "uploads/images/img.png")
    (some "img.png")

/-- A one-record store holding only the soft-deleted record. -/
def dbEx : List ImageAsset :=
  [rDel]

/-- The default `/api/search` parameters (no filters,
`include_deleted = false`, `limit = 100`, `offset = 0`). -/
def psDefault : SearchParams :=
  SearchParams.mk none none none none none none false 100 0

/-!
Theorems.
-/

/-- C1 counterexample: the claim does not hold of the zip driver's path
resolution (`zip_uploader.py`, cited by the claim).  With the CSV at the
extraction root `R`, the declared path `../p` is resolved against the CSV's
directory and normalized to a sibling of `R` — not to `R/p` as the claim
requires of every declared CSV image path. -/
theorem c1_zip_resolver_counterexample :
    resolveZipPath ["R"] ["..", "p"] = ["p"] ∧
    resolveZipPath ["R"] ["..", "p"] ≠ ["R", "p"] := by
  constructor
  · decide
  · decide

/-- C1 (amended): the frontend bulk-upload resolver follows the ordered
algorithm — a leading parent-escape segment is stripped and the remainder
resolved against the extraction root (never the CSV directory), other paths
are resolved against the CSV directory, and a primary miss falls back to the
first recursive match of the base filename under
`<root>/resources/nsfw_data`; the zip driver's resolver instead resolves
every declared path against the CSV's directory. -/
theorem c1_path_resolution (fs : FileSystem) (tempDir csvDir p : FPath) :
    (p.head? = some ".." →
      bulkPrimary tempDir csvDir p = normalizeSegs (tempDir ++ p.tail)) ∧
    (p.head? ≠ some ".." →
      bulkPrimary tempDir csvDir p = normalizeSegs (csvDir ++ p)) ∧
    (fs.fileExists (bulkPrimary tempDir csvDir p) = true →
      resolveBulkPath fs tempDir csvDir p = bulkPrimary tempDir csvDir p) ∧
    (∀ m, fs.fileExists (bulkPrimary tempDir csvDir p) = false →
      fs.dirExists (tempDir ++ ["resources", "nsfw_data"]) = true →
      fs.rglobFirst (tempDir ++ ["resources", "nsfw_data"]) (pathName p)
        = some m →
      resolveBulkPath fs tempDir csvDir p = m) ∧
    resolveZipPath csvDir p = normalizeSegs (csvDir ++ p) := by
  refine ⟨?_, ?_, ?_, ?_, rfl⟩
  · intro h
    simp [bulkPrimary, h]
  · intro h
    simp [bulkPrimary, h]
  · intro h
    simp [resolveBulkPath, h]
  · intro m h1 h2 h3
    simp [resolveBulkPath, h1, h2, h3]

/-- Witness for C1: a concrete parent-escaped path resolved by the bulk
resolver against extraction root `["R"]` with the CSV one level deeper. -/
theorem c1_path_resolution_witness :
    bulkPrimary ["R"] ["R", "csvs"] ["..", "resources", "img.png"]
      = normalizeSegs (["R"] ++ (["..", "resources", "img.png"] : FPath).tail) :=
  (c1_path_resolution (FileSystem.mk []) ["R"] ["R", "csvs"]
    ["..", "resources", "img.png"]).1 (by decide)

/-- Folding a list of row outcomes into a results dictionary adds the
number of successes to `successful`, the number of failures to `failed`,
and appends the failure messages in order; `total` is untouched. -/
theorem foldl_stepSummary (l : List RowOutcome) (s : Summary) :
    l.foldl stepSummary s
      = Summary.mk s.total
          (s.successful + l.countP RowOutcome.isSuccess)
          (s.failed + l.countP (fun o => !o.isSuccess))
          (s.errors ++ l.filterMap RowOutcome.failureMsg) := by
  induction l generalizing s with
  | nil => simp
  | cons o t ih =>
    cases o with
    | success i =>
      simp [List.foldl_cons, ih, stepSummary, List.countP_cons,
        RowOutcome.isSuccess, RowOutcome.failureMsg]
      omega
    | failure m =>
      simp [List.foldl_cons, ih, stepSummary, List.countP_cons,
        RowOutcome.isSuccess, RowOutcome.failureMsg]
      omega

/-- C2: the zip driver's row loop gives every data row exactly one outcome:
the summary's `total` is the number of data rows, `successful + failed`
equals `total`, the error list is exactly the ordered failure messages of
the per-row outcomes (one entry per failed row, none for successful rows),
and a row whose declared path does not resolve to an existing file yields
the single `Image not found` failure for that row — later rows still
contribute their own outcome, since the fold runs over the whole row
list. -/
theorem c2_one_outcome_per_row (fs : FileSystem) (csvDir : FPath)
    (upload : UploadOracle) (rows : List CsvRow) :
    (processCsvRows fs csvDir upload rows).total = rows.length ∧
    (processCsvRows fs csvDir upload rows).successful
        + (processCsvRows fs csvDir upload rows).failed
      = (processCsvRows fs csvDir upload rows).total ∧
    (processCsvRows fs csvDir upload rows).errors
      = (rows.enum.map
          (fun ir => processCsvRow fs csvDir upload ir.1 ir.2)).filterMap
          RowOutcome.failureMsg ∧
    (processCsvRows fs csvDir upload rows).errors.length
      = (processCsvRows fs csvDir upload rows).failed ∧
    (∀ idx row,
      fs.fileExists (resolveZipPath csvDir row.imagePath) = false →
      processCsvRow fs csvDir upload idx row
        = .failure (notFoundMsg idx row (resolveZipPath csvDir row.imagePath))) := by
  have hfold := foldl_stepSummary
    (rows.enum.map (fun ir => processCsvRow fs csvDir upload ir.1 ir.2))
    (Summary.mk rows.length 0 0 [])
  refine ⟨?_, ?_, ?_, ?_, ?_⟩
  · simp [processCsvRows, hfold]
  · simp only [processCsvRows, hfold]
    have := List.length_eq_countP_add_countP RowOutcome.isSuccess
      (l := rows.enum.map (fun ir => processCsvRow fs csvDir upload ir.1 ir.2))
    simp at this ⊢
    omega
  · simp [processCsvRows, hfold]
  · simp only [processCsvRows, hfold]
    simp [List.length_filterMap_eq_countP, RowOutcome.failureMsg]
    congr 1
    funext ir
    cases h : processCsvRow fs csvDir upload ir.1 ir.2 <;>
      simp [RowOutcome.failureMsg, RowOutcome.isSuccess, h]
  · intro idx row h
    simp [processCsvRow, h]

/-- Witness for C2: a concrete row whose declared path does not resolve
produces the `Image not found` failure outcome. -/
theorem c2_one_outcome_per_row_witness :
    processCsvRow (FileSystem.mk []) ["T"] (fun _ _ => Except.ok 1) 0 rowEx
      = RowOutcome.failure
          (notFoundMsg 0 rowEx (resolveZipPath ["T"] rowEx.imagePath)) :=
  (c2_one_outcome_per_row (FileSystem.mk []) ["T"] (fun _ _ => Except.ok 1)
    [rowEx]).2.2.2.2 0 rowEx (by decide)

/-- Every directory id on disk is bounded by the running maximum, so the
fresh id chosen by `mkdtemp` is never already present. -/
theorem freshTempId_not_mem (d : DiskState) :
    freshTempId d ∉ d.tempDirs := by
  have hle : ∀ x ∈ d.tempDirs,
      x ≤ d.tempDirs.foldr (fun a b => max a b) 0 := by
    induction d.tempDirs with
    | nil => intro x hx; cases hx
    | cons a t ih =>
      intro x hx
      rcases List.mem_cons.mp hx with h | h
      · subst h
        exact Nat.le_max_left _ _
      · exact Nat.le_trans (ih x h) (Nat.le_max_right _ _)
  intro hmem
  have h := hle _ hmem
  simp only [freshTempId] at h
  omega

/-- Creating a fresh temporary directory and removing it in the `finally`
restores the disk exactly. -/
theorem rmtree_mkdtemp (d : DiskState) :
    rmtree (mkdtemp d).2 (mkdtemp d).1 = d := by
  have hfresh := freshTempId_not_mem d
  simp only [rmtree, mkdtemp, List.filter_append]
  have h1 : d.tempDirs.filter (fun x => x != freshTempId d) = d.tempDirs := by
    apply List.filter_eq_self.mpr
    intro a ha
    simp
    intro heq
    exact hfresh (heq ▸ ha)
  have h2 : [freshTempId d].filter (fun x => x != freshTempId d) = [] := by
    simp
  rw [h1, h2, List.append_nil]

/-- C3: after any invocation of either batch driver — whatever the
batch-level conditions (`inp` covers extraction failure, missing CSV,
unparseable CSV and every row-loop behaviour) and whatever the upload
oracle does — the temporary extraction directory created by that invocation
is gone: the final disk equals the initial one, and in particular the
created directory id is absent. -/
theorem c3_cleanup_invariant (disk : DiskState) (inp : BatchInput)
    (upload : UploadOracle) (httpOk : Nat → CsvRow → Bool) :
    (runZipDriver disk inp upload).2 = disk ∧
    (runBulkDriver disk inp httpOk).2 = disk ∧
    freshTempId disk ∉ ((runZipDriver disk inp upload).2).tempDirs := by
  refine ⟨rmtree_mkdtemp disk, rmtree_mkdtemp disk, ?_⟩
  rw [show (runZipDriver disk inp upload).2 = disk from rmtree_mkdtemp disk]
  exact freshTempId_not_mem disk

/-- C4 counterexample: the normalizer does not produce trimmed strings, and
angle fields are not mapped to an absent marker.  The padded value
`" test "` is kept verbatim (it is not a trimmed string), and a missing
angle column becomes the empty string — two violations of the claim at
concrete inputs. -/
theorem c4_normalizer_counterexample :
    normalizeOptField (Cell.str " test ") = some " test " ∧
    pyStrip " test " ≠ " test " ∧
    angleField Cell.absent = Cell.str "" := by
  refine ⟨?_, by decide, rfl⟩
  decide

/-- C4 (amended): for the action and prompt fields the normalizer maps a
missing value, numeric NaN, empty string, or whitespace-only string to the
absent marker, and any other string to itself, kept verbatim (non-empty
after trimming, but not itself trimmed); in particular no normalized
action/prompt field is the empty string or a NaN sentinel.  Angle fields
are not normalized: a missing angle column becomes the empty string and
any present value (including NaN) passes through unchanged. -/
theorem c4_row_normalizer (c : Cell) (s : String) :
    (normalizeOptField c = some s → c = Cell.str s ∧ pyStrip s ≠ "") ∧
    normalizeOptField Cell.absent = none ∧
    normalizeOptField Cell.nan = none ∧
    (pyStrip s = "" → normalizeOptField (Cell.str s) = none) ∧
    (pyStrip s ≠ "" → normalizeOptField (Cell.str s) = some s) ∧
    angleField Cell.absent = Cell.str "" ∧
    angleField Cell.nan = Cell.nan ∧
    angleField (Cell.str s) = Cell.str s := by
  refine ⟨?_, rfl, rfl, ?_, ?_, rfl, rfl, rfl⟩
  · intro h
    cases c with
    | absent => simp [normalizeOptField] at h
    | nan => simp [normalizeOptField] at h
    | str t =>
      by_cases ht : pyStrip t = ""
      · simp [normalizeOptField, ht] at h
      · simp [normalizeOptField, ht] at h
        subst h
        exact ⟨rfl, ht⟩
  · intro h
    simp [normalizeOptField, h]
  · intro h
    simp [normalizeOptField, h]

/-- Witness for C4: a non-blank action value is kept as-is. -/
theorem c4_row_normalizer_witness :
    normalizeOptField (Cell.str "above") = some "above" :=
  (c4_row_normalizer (Cell.str "above") "above").2.2.2.2.1 (by decide)

/-- One accepted row's backend insert appends exactly one record. -/
theorem length_insertZipRow (now : Nat) (row : CsvRow)
    (db : List ImageAsset) :
    (insertZipRow now row db).length = db.length + 1 := by
  simp [insertZipRow, uploadImageAsset, UploadStep.readOk,
    UploadStep.localSaveOk, UploadStep.commitOk]

/-- The number of records after one driver run is the starting count plus
the number of uploadable rows — regardless of what the store already
contains, because no step of the pipeline reads it. -/
theorem length_runZipBatchStore (fs : FileSystem) (csvDir : FPath)
    (accepts : Nat → CsvRow → Bool) (now : Nat) (rows : List CsvRow)
    (db : List ImageAsset) :
    (runZipBatchStore fs csvDir accepts now rows db).length
      = db.length + rows.enum.countP (rowUploadable fs csvDir accepts) := by
  unfold runZipBatchStore
  generalize rows.enum = l
  induction l generalizing db with
  | nil => simp
  | cons ir t ih =>
    by_cases h : rowUploadable fs csvDir accepts ir = true
    · simp [List.foldl_cons, h, ih, length_insertZipRow, List.countP_cons]
      omega
    · rw [Bool.not_eq_true] at h
      simp [List.foldl_cons, h, ih, List.countP_cons]

/-- C5: the batch ingestion driver performs no duplicate detection.  A
run uploads one fresh record per uploadable row, independently of the store
contents, so running the same CSV twice against an initially empty store
leaves exactly twice as many records as one run does. -/
theorem c5_no_duplicate_detection (fs : FileSystem) (csvDir : FPath)
    (accepts : Nat → CsvRow → Bool) (now : Nat) (rows : List CsvRow) :
    (runZipBatchStore fs csvDir accepts now rows
        (runZipBatchStore fs csvDir accepts now rows [])).length
      = 2 * (runZipBatchStore fs csvDir accepts now rows []).length ∧
    (runZipBatchStore fs csvDir accepts now rows []).length
      = rows.enum.countP (rowUploadable fs csvDir accepts) := by
  have h1 := length_runZipBatchStore fs csvDir accepts now rows []
  have h2 := length_runZipBatchStore fs csvDir accepts now rows
    (runZipBatchStore fs csvDir accepts now rows [])
  simp at h1
  constructor
  · rw [h2, h1]
    omega
  · exact h1

/-- C6 counterexample: for an archive with zero CSV files the zip driver
(cited by the claim) does not return a summary — it raises
`FileNotFoundError("No CSV file found in zip archive")`, which propagates
to the caller as an exception value, so the invocation's result is an
error, not a summary. -/
theorem c6_no_csv_counterexample :
    (runZipDriver (DiskState.mk []) noCsvInput (fun _ _ => Except.ok 1)).1
      = Except.error (BatchErr.noCsv "No CSV file found in zip archive") := by
  rfl

/-- C6 (amended): when the archive contains zero CSV files the batch aborts
immediately without processing any rows — the outcome does not depend on
the upload oracle — and the temporary directory is still removed.  The zip
driver aborts by raising `FileNotFoundError("No CSV file found in zip
archive")` (an exception, not a returned summary); the frontend driver
returns the status message `"❌ No CSV file found in zip archive"`. -/
theorem c6_no_csv_abort (disk : DiskState) (inp : BatchInput)
    (upload upload' : UploadOracle) (httpOk : Nat → CsvRow → Bool)
    (hext : inp.extractErr = none) (hcsv : inp.csvFound = false) :
    (runZipDriver disk inp upload).1
      = Except.error (BatchErr.noCsv "No CSV file found in zip archive") ∧
    (runZipDriver disk inp upload).1 = (runZipDriver disk inp upload').1 ∧
    (runZipDriver disk inp upload).2 = disk ∧
    (runBulkDriver disk inp httpOk).1
      = "❌ No CSV file found in zip archive" ∧
    (runBulkDriver disk inp httpOk).2 = disk := by
  refine ⟨?_, ?_, rmtree_mkdtemp disk, ?_, rmtree_mkdtemp disk⟩
  · simp [runZipDriver, zipDriverBody, hext, hcsv]
  · simp [runZipDriver, zipDriverBody, hext, hcsv]
  · simp [runBulkDriver, bulkBodyStatus, hext, hcsv]

/-- Witness for C6: the concrete no-CSV archive aborts with the
`FileNotFoundError` value. -/
theorem c6_no_csv_abort_witness :
    (runZipDriver (DiskState.mk []) noCsvInput (fun _ _ => Except.ok 1)).1
      = Except.error (BatchErr.noCsv "No CSV file found in zip archive") :=
  (c6_no_csv_abort (DiskState.mk []) noCsvInput (fun _ _ => Except.ok 1)
    (fun _ _ => Except.ok 2) (fun _ _ => true) rfl rfl).1

/-- C7: evaluation at the failing input.  For a header-only CSV (zero data
rows) the zip driver does return `{total := 0, successful := 0,
failed := 0}` with an empty error list — but the frontend bulk-upload
driver (also cited by the claim) raises `ZeroDivisionError` in its
success-rate log line, and its caught exception turns the invocation into
the error status instead of a completed summary. -/
theorem c7_empty_csv_eval :
    (runZipDriver (DiskState.mk []) emptyCsvInput (fun _ _ => Except.ok 1)).1
      = Except.ok (Summary.mk 0 0 0 []) ∧
    (runBulkDriver (DiskState.mk []) emptyCsvInput (fun _ _ => true)).1
      = "❌ Error processing bulk upload: division by zero" := by
  constructor
  · rfl
  · rfl

/-- C8: evaluation at the failing input.  A run of `upload_csv_to_db.py`
whose batch summary is `{total := 0, successful := 0, failed := 0}` (e.g. a
header-only CSV) crashes in the summary print (`successful/total*100`)
and the interpreter exits with code 1 even though the failed count is
zero; for summaries with at least one row the exit code is 0 exactly when
`failed = 0`. -/
theorem c8_cli_exit_eval :
    cliExitCode (Summary.mk 0 0 0 []) = 1 ∧
    (Summary.mk 0 0 0 ([] : List String)).failed = 0 ∧
    cliExitCode (Summary.mk 3 3 0 []) = 0 ∧
    cliExitCode (Summary.mk 3 2 1 ["Row 2 (r2): Image not found: x"]) = 1 := by
  refine ⟨rfl, rfl, rfl, rfl⟩

/-- A record returned by an equality-filter step was already in the list
the step filtered. -/
theorem mem_of_mem_applyEqFilter (f : ImageAsset → Option String)
    (p : Option String) (l : List ImageAsset) (a : ImageAsset)
    (h : a ∈ applyEqFilter f p l) : a ∈ l := by
  cases p with
  | none => exact h
  | some s =>
    by_cases hs : s = ""
    · simpa [applyEqFilter, hs] using h
    · have h' : a ∈ l ∧ f a = some s := by
        simpa [applyEqFilter, hs] using h
      exact h'.1

/-- A record returned by the prompt-filter step was already in the list the
step filtered. -/
theorem mem_of_mem_applyPromptFilter (p : Option String)
    (l : List ImageAsset) (a : ImageAsset)
    (h : a ∈ applyPromptFilter p l) : a ∈ l := by
  cases p with
  | none => exact h
  | some s =>
    by_cases hs : s = ""
    · simpa [applyPromptFilter, hs] using h
    · have h' : a ∈ l ∧ promptLike a s = true := by
        simpa [applyPromptFilter, hs] using h
      exact h'.1

/-- Any record in a search result page survived the initial soft-delete
filter step. -/
theorem mem_search_deleted_filter (db : List ImageAsset)
    (ps : SearchParams) (a : ImageAsset)
    (h : a ∈ (searchImageAssets db ps).2) :
    a ∈ (if ps.include_deleted then db
         else db.filter (fun x => x.deleted_at = none)) := by
  unfold searchImageAssets at h
  have h1 := List.drop_subset _ _ (List.take_subset _ _ h)
  have h2 := mem_of_mem_applyPromptFilter _ _ _ h1
  have h3 := mem_of_mem_applyEqFilter _ _ _ _ h2
  have h4 := mem_of_mem_applyEqFilter _ _ _ _ h3
  have h5 := mem_of_mem_applyEqFilter _ _ _ _ h4
  have h6 := mem_of_mem_applyEqFilter _ _ _ _ h5
  exact mem_of_mem_applyEqFilter _ _ _ _ h6

/-- `GET /api/assets/{id}` finds a record with the requested id whenever
one is present, with no condition on `deleted_at`. -/
theorem getImageAsset_of_mem (db : List ImageAsset) (r : ImageAsset)
    (hmem : r ∈ db) :
    ∃ x, getImageAsset db r.id = some x ∧ x.id = r.id := by
  induction db with
  | nil => cases hmem
  | cons a l ih =>
    by_cases h : a.id = r.id
    · refine ⟨a, ?_, h⟩
      simp [getImageAsset, List.find?_cons, h]
    · rcases List.mem_cons.mp hmem with he | hm
      · subst he
        exact absurd rfl h
      · obtain ⟨x, hx1, hx2⟩ := ih hm
        refine ⟨x, ?_, hx2⟩
        simpa [getImageAsset, List.find?_cons, h] using hx1

/-- C9: a record with a non-null soft-deletion timestamp is never in the
result page of a search with `include_deleted = false` (any filters, any
pagination); some search with `include_deleted = true` does return it; and
the get-by-id endpoint still returns a record with its id. -/
theorem c9_soft_delete_invariant (db : List ImageAsset) (r : ImageAsset)
    (t : Nat) (hmem : r ∈ db) (hdel : r.deleted_at = some t) :
    (∀ ps : SearchParams, ps.include_deleted = false →
      r ∉ (searchImageAssets db ps).2) ∧
    (∃ ps : SearchParams, ps.include_deleted = true ∧
      r ∈ (searchImageAssets db ps).2) ∧
    (∃ x, getImageAsset db r.id = some x ∧ x.id = r.id) := by
  refine ⟨?_, ?_, getImageAsset_of_mem db r hmem⟩
  · intro ps hps habs
    have h := mem_search_deleted_filter db ps r habs
    rw [hps] at h
    simp at h
    rw [hdel] at h
    exact Option.noConfusion h.2
  · obtain ⟨i, hi, hget⟩ := List.mem_iff_getElem.mp hmem
    refine ⟨SearchParams.mk none none none none none none true 1 i, rfl, ?_⟩
    have hres :
        (searchImageAssets db
          (SearchParams.mk none none none none none none true 1 i)).2
          = (db.drop i).take 1 := rfl
    rw [hres, ← List.getElem_cons_drop db i hi]
    simp [hget]

/-- Witness for C9: the concrete soft-deleted record is absent from a
default search over the one-record store. -/
theorem c9_soft_delete_invariant_witness :
    rDel ∉ (searchImageAssets dbEx psDefault).2 :=
  (c9_soft_delete_invariant dbEx rDel 5 (by decide) rfl).1 psDefault rfl

/-- C10: the upload endpoint is atomic with respect to the metadata store.
If any of the modelled steps fails (file read, local save, S3 upload,
record insert/commit), the handler's `except` path leaves the database
unchanged and the HTTP outcome is status 500; a record is appended exactly
on the success path, freshly created (null `deleted_at`), with
`local_file_path` populated and `s3_url` null in local-storage mode, and
`s3_url` populated and `local_file_path` null in S3 mode. -/
theorem c10_upload_atomicity (useLocal : Bool) (st : UploadStep) (now : Nat)
    (filename : String) (a1 a2 act1 act2 act3 pr : Option String)
    (db : List ImageAsset) :
    (∀ code,
      (uploadImageAsset useLocal st now filename a1 a2 act1 act2 act3 pr db).1
        = Except.error code →
      (uploadImageAsset useLocal st now filename a1 a2 act1 act2 act3 pr db).2
        = db ∧ code = 500) ∧
    (∀ asset,
      (uploadImageAsset useLocal st now filename a1 a2 act1 act2 act3 pr db).1
        = Except.ok asset →
      (uploadImageAsset useLocal st now filename a1 a2 act1 act2 act3 pr db).2
        = db ++ [asset] ∧
      asset.deleted_at = none ∧
      (useLocal = true → asset.s3_url = none ∧ asset.local_file_path ≠ none) ∧
      (useLocal = false → asset.s3_url ≠ none ∧ asset.local_file_path = none)) := by
  rcases st with ⟨ro, lo, s3r, co⟩
  cases useLocal <;> cases ro <;> cases lo <;> cases co <;> cases s3r <;>
    refine ⟨fun code hcode => ?_, fun asset hasset => ?_⟩ <;>
    simp_all [uploadImageAsset, newAssetId] <;>
    simp [← hasset]

/-- Witness for C10: a failed file read leaves the empty store empty. -/
theorem c10_upload_atomicity_witness :
    (uploadImageAsset true (UploadStep.mk false true none true) 0 "img.png"
      none none none none none none []).2 = ([] : List ImageAsset) :=
  ((c10_upload_atomicity true (UploadStep.mk false true none true) 0 "img.png"
    none none none none none none []).1 500 rfl).1

end NsfwDb
